import Mathlib

/-!
Verification development for the pdf-agent repository (backend service in
`backend/app.py`, `backend/vector.py`).  The Python code is shallowly embedded:
strings are Lean `String`s, Python string primitives are re-implemented over
the character list `String.data` (structural recursion, so everything reduces
in the kernel), dictionaries become association lists, and the external
collaborators (Chroma store, PDF loader, Ollama model) are modelled as
explicit parameters or state.
-/

namespace PdfAgent

/-! ### Python string primitives -/

/-- Model of Python `str.lower()`: lowercase each character (the service only
ever handles ASCII queries and chunk texts, where `Char.toLower` agrees with
Python). -/
def pyLower (s : String) : String :=
  ⟨s.data.map Char.toLower⟩

/-- Model of Python slicing `s[:n]`: first `n` characters. -/
def pyTake (n : Nat) (s : String) : String :=
  ⟨s.data.take n⟩

/-- Model of Python `s.replace("\n", " ")` (single-character pattern, so it is
a character-wise map). -/
def pyReplaceNl (s : String) : String :=
  ⟨s.data.map (fun c => if c = '\n' then ' ' else c)⟩

/-- Helper for `pySplitWs`: walks the characters, accumulating the current
word reversed; whitespace ends a word, and empty segments are dropped, exactly
as Python `str.split()` with no argument behaves. -/
def wsSplitAux : List Char → List Char → List String
  | [], acc => if acc.isEmpty then [] else [⟨acc.reverse⟩]
  | c :: rest, acc =>
    if c.isWhitespace then
      if acc.isEmpty then wsSplitAux rest [] else ⟨acc.reverse⟩ :: wsSplitAux rest []
    else wsSplitAux rest (c :: acc)

/-- Model of Python `str.split()` (no separator): split on whitespace runs,
discarding empty segments. -/
def pySplitWs (s : String) : List String :=
  wsSplitAux s.data []

/-- Occurrence of `needle` as a contiguous subsequence of `hay`
(model of Python `needle in hay` on strings, character-based). -/
def subOccurs (needle : List Char) : List Char → Bool
  | [] => needle.isEmpty
  | c :: rest => needle.isPrefixOf (c :: rest) || subOccurs needle rest

/-- Model of Python `needle in hay` for strings. -/
def strContains (hay needle : String) : Bool :=
  subOccurs needle.data hay.data

/-- Model of Python `s.endswith(p)`: the reversed pattern heads the reversed
character list. -/
def pyEndsWith (s p : String) : Bool :=
  p.data.reverse.isPrefixOf s.data.reverse

/-- Model of Python `sep.join(parts)`. -/
def pyJoin (sep : String) : List String → String
  | [] => ""
  | a :: rest => rest.foldl (fun acc x => acc ++ sep ++ x) a

/-- Model of Python `enumerate(l)` starting at index `i`. -/
def enumFromN (i : Nat) : List String → List (Nat × String)
  | [] => []
  | c :: cs => (i, c) :: enumFromN (i + 1) cs

/-! ### Keyword fallback (`backend/app.py`, lines 161-173)

The fallback lives inline in the `/query` handler:

    qwords = [w for w in req.question.lower().split() if len(w) > 2]
    scores = []
    for i, chunk in enumerate(doc_info.get("chunks", [])):
        low = chunk.lower()
        score = 0
        for w in qwords:
            if w in low:
                score += 1
        if score > 0:
            scores.append((score, i, chunk))
    scores.sort(reverse=True)
    top = [c for _, _, c in scores[:3]]
-/

/-- Query tokens: lowercase, split on whitespace, keep tokens of length > 2. -/
def qwords (question : String) : List String :=
  (pySplitWs (pyLower question)).filter (fun w => 2 < w.length)

/-- Score of one chunk: the inner `for w in qwords` loop, which adds 1 for
every token (with multiplicity) contained in the lowercased chunk. -/
def chunk_score (qws : List String) (chunk : String) : Nat :=
  qws.foldl (fun score w => if strContains (pyLower chunk) w then score + 1 else score) 0

/-- The `scores` list: `(score, index, chunk)` triples for positively scoring
chunks, built in enumeration order. -/
def scores_list (question : String) (chunks : List String) : List (Nat × Nat × String) :=
  (enumFromN 0 chunks).filterMap (fun p =>
    if 0 < chunk_score (qwords question) p.2
    then some (chunk_score (qwords question) p.2, p.1, p.2) else none)

/-- Ordering realised by Python's `scores.sort(reverse=True)`: tuples compare
lexicographically, so descending score and, on equal scores, descending index.
The third (chunk text) component never participates because the indices in a
`scores` list are pairwise distinct. -/
def geRel (a b : Nat × Nat × String) : Prop :=
  b.1 < a.1 ∨ (a.1 = b.1 ∧ b.2.1 ≤ a.2.1)

instance : DecidableRel geRel := fun a b => by
  unfold geRel; infer_instance

instance : IsTotal (Nat × Nat × String) geRel := by
  constructor; intro a b; unfold geRel; omega

instance : IsTrans (Nat × Nat × String) geRel := by
  constructor; intro a b c; unfold geRel; omega

/-- The sorted `scores` list (`scores.sort(reverse=True)`). -/
def sorted_scores (question : String) (chunks : List String) : List (Nat × Nat × String) :=
  (scores_list question chunks).insertionSort geRel

/-- The `scores[:3]` slice after sorting: entries that survive to `top`. -/
def top_entries (question : String) (chunks : List String) : List (Nat × Nat × String) :=
  (sorted_scores question chunks).take 3

/-- The `top` list of selected chunk texts. -/
def top (question : String) (chunks : List String) : List String :=
  (top_entries question chunks).map (fun t => t.2.2)

/-! ### Retrieved documents and the duck-typed retriever
(`backend/vector.py`, lines 100-116) -/

/-- A LangChain document as the service sees it: only `page_content` is read. -/
structure Doc where
  page_content : String
deriving Repr, DecidableEq

/-- A duck-typed retriever: `retrieve_documents` probes, in order, for a
`get_relevant_documents` method, a `retrieve` method, and an `invoke` method.
Each optional field models `hasattr` plus the bound method. -/
structure Retriever where
  get_relevant_documents : Option (String → List Doc)
  retrieve : Option (String → List Doc)
  invoke : Option (String → List Doc)

/-- Embedding of `vector.retrieve_documents(retriever, query, k)`.  Note that
the first two branches slice with `[:k]` but the `invoke` branch returns the
result untruncated; with no method at all an `AttributeError` is raised. -/
def retrieve_documents (r : Retriever) (query : String) (k : Nat) :
    Except String (List Doc) :=
  match r.get_relevant_documents with
  | some f => .ok ((f query).take k)
  | none =>
    match r.retrieve with
    | some f => .ok ((f query).take k)
    | none =>
      match r.invoke with
      | some f => .ok (f query)
      | none => .error "Retriever does not support document retrieval methods"

/-- Length of a successful retrieval (0 for an error), used to state size
bounds uniformly. -/
def retrievedLen (r : Except String (List Doc)) : Nat :=
  match r with
  | .ok l => l.length
  | .error _ => 0

/-! ### Vector store construction (`backend/vector.py`, lines 25-97)

`create_retriever_from_pdf` makes the persist directory, loads and splits the
PDF, and adds the chunks to the Chroma collection only when the persist
directory is empty (`dir_is_empty` heuristic, lines 61-73).  The filesystem of
persist directories is modelled as an association list from directory name to
the list of chunk texts persisted in it; the external loader+splitter outcome
is a parameter (`Except` for a raised exception).  The retriever returned by
the real code serves whatever the (possibly pre-existing) collection holds, so
the model returns the resulting store contents as the built index. -/

/-- Persisted state: each created persist directory with the chunk texts its
Chroma collection holds. -/
structure FsState where
  dirs : List (String × List String)
deriving Repr, DecidableEq

/-- Lookup in an association list (Python `d.get(k)`). -/
def assocLookup {α : Type} (l : List (String × α)) (k : String) : Option α :=
  match l with
  | [] => none
  | (k0, v) :: rest => if k0 = k then some v else assocLookup rest k

/-- Assignment in an association list (Python `d[k] = v`). -/
def assocSet {α : Type} (l : List (String × α)) (k : String) (v : α) :
    List (String × α) :=
  match l with
  | [] => [(k, v)]
  | (k0, v0) :: rest => if k0 = k then (k0, v) :: rest else (k0, v0) :: assocSet rest k v

/-- Model of `os.makedirs(persist_dir, exist_ok=True)`: create the directory
(empty) when absent. -/
def makedirs (fs : FsState) (d : String) : FsState :=
  match assocLookup fs.dirs d with
  | some _ => fs
  | none => ⟨assocSet fs.dirs d []⟩

/-- Debug info payload built at the end of `create_retriever_from_pdf`
(lines 77-96): chunk count, up to three 400-character samples with newlines
replaced, and the whitespace-normalised chunk texts kept for the fallback. -/
structure DocInfo where
  chunk_count : Nat
  samples : List String
  chunks : List String
deriving Repr, DecidableEq

/-- Construction of the info payload from the split documents. -/
def mkInfo (documents : List String) : DocInfo :=
  { chunk_count := documents.length
  , samples := (documents.take 3).map (fun t => pyTake 400 (pyReplaceNl t))
  , chunks := documents.map (fun t => pyJoin " " (pySplitWs t)) }

/-- Embedding of `create_retriever_from_pdf`.  `load_result` stands for the
external `PyPDFLoader.load` + `RecursiveCharacterTextSplitter` pipeline: `.ok
documents` gives the chunk texts, `.error e` a raised exception.  The function
returns the new persisted state along with either the error (propagated to the
caller) or the contents the returned retriever serves plus its info payload. -/
def create_retriever_from_pdf (fs : FsState) (persist_dir : String)
    (load_result : Except String (List String)) :
    FsState × Except String (List String × DocInfo) :=
  let fs1 := makedirs fs persist_dir
  match load_result with
  | .error e => (fs1, .error e)
  | .ok documents =>
    let contents := (assocLookup fs1.dirs persist_dir).getD []
    if contents.isEmpty then
      (⟨assocSet fs1.dirs persist_dir (contents ++ documents)⟩,
        .ok (contents ++ documents, mkInfo documents))
    else
      (fs1, .ok (contents, mkInfo documents))

/-- Registry entry stored in `DOCS` by the upload handler, projected to the
fields the endpoints read (the retriever is represented by the chunk list its
store serves). -/
structure DocRecord where
  persist_dir : String
  filename : String
  index : List String
  info : DocInfo
deriving Repr, DecidableEq

/-- Embedding of the `/upload` handler (`backend/app.py`, lines 61-93):
reject non-PDF filenames, build or load the retriever, surface build errors
as HTTP 500 without registering anything, and on success register a fresh
`doc_id`. -/
def upload_pdf (docsReg : List (String × DocRecord)) (fs : FsState)
    (persist_dir filename new_doc_id : String)
    (load_result : Except String (List String)) :
    List (String × DocRecord) × FsState × Except (Nat × String) String :=
  if pyEndsWith (pyLower filename) ".pdf" then
    let r := create_retriever_from_pdf fs persist_dir load_result
    match r.2 with
    | .error e => (docsReg, r.1, .error (500, e))
    | .ok built =>
      (assocSet docsReg new_doc_id ⟨persist_dir, filename, built.1, built.2⟩,
        r.1, .ok new_doc_id)
  else
    (docsReg, fs, .error (400, "Only PDF files are supported"))

/-! ### The `/query` endpoint (`backend/app.py`, lines 109-208)

The handler resolves a retriever from `session_id` (falling back to `doc_id`),
retrieves up to 5 documents, attempts the keyword fallback when retrieval is
empty, invokes the model chain, appends to the session history when a session
was used, and returns the answer plus debug info.  The global dictionaries
`DOCS` and `SESSIONS` become an explicit `AppState`; the model chain
(`chain.invoke`) is an external parameter `gen : context → question → answer`.
The `source` field of the response is the derived observability tag of the
spec: which branch supplied the context. -/

/-- Entry of the global `DOCS` dictionary as the query path reads it. -/
structure DocEntry where
  persist_dir : String
  filename : String
  retriever : Retriever
  info : DocInfo

/-- Entry of the global `SESSIONS` dictionary. -/
structure SessionEntry where
  doc_id : String
  history : List (String × String)

/-- The two in-memory stores of `backend/app.py` (lines 33-35). -/
structure AppState where
  docs : List (String × DocEntry)
  sessions : List (String × SessionEntry)

/-- Python truthiness of an optional string (`if req.session_id:`): present
and non-empty. -/
def optTruthy (o : Option String) : Bool :=
  match o with
  | some s => s ≠ ""
  | none => false

/-- Request body of `/query`. -/
structure QueryRequest where
  question : String
  session_id : Option String
  doc_id : Option String

/-- Which branch supplied the context handed to the model. -/
inductive Source where
  | vector
  | keyword
  | none_
deriving Repr, DecidableEq

/-- Response of a successful `/query`, projected to the observable fields the
specification talks about. -/
structure QueryResponse where
  answer : String
  doc_id : Option String
  retrieved_count : Nat
  snippets : List String
  context_used : String
  source : Source

/-- Body of the `/query` handler after the retriever is resolved
(lines 130-208): retrieval, snippets, keyword fallback, model invocation,
history append, response assembly.  `sess` carries the session id and entry
when the session path was taken, and `doc_info` is the resolved info payload
(lines 149-155). -/
def queryBody (gen : String → String → String) (st : AppState) (req : QueryRequest)
    (sess : Option (String × SessionEntry)) (entry : DocEntry)
    (doc_info : Option DocInfo) :
    Except (Nat × String) QueryResponse × AppState :=
  match retrieve_documents entry.retriever req.question 5 with
  | .error e => (.error (500, e), st)
  | .ok docs =>
    let snippets := docs.map (fun d => pyReplaceNl (pyTake 300 d.page_content))
    let context0 := pyJoin "\n\n" (docs.map (fun d => d.page_content))
    let fallback_context : Option String :=
      if docs.length = 0 then
        match doc_info with
        | some di =>
          if di.chunks ≠ [] then
            if top req.question di.chunks ≠ [] then
              some (pyJoin "\n\n" (top req.question di.chunks))
            else none
          else none
        | none => none
      else none
    let context :=
      match fallback_context with
      | some s => if s ≠ "" then s else context0
      | none => context0
    let source : Source :=
      if docs.length ≠ 0 then .vector
      else
        match fallback_context with
        | some s => if s ≠ "" then .keyword else .none_
        | none => .none_
    let answer := gen context req.question
    let st1 :=
      match sess with
      | some (sid, s) =>
        { st with sessions :=
            assocSet st.sessions sid ⟨s.doc_id, s.history ++ [(req.question, answer)]⟩ }
      | none => st
    (.ok { answer := answer
         , doc_id := match sess with | some (_, s) => some s.doc_id | none => req.doc_id
         , retrieved_count := docs.length
         , snippets := snippets
         , context_used := context
         , source := source }, st1)

/-- Embedding of the `/query` handler.  Resolution mirrors lines 112-126: a
truthy `session_id` must exist in `SESSIONS` (else 404) and its `doc_id` is
read from `DOCS` unchecked (a missing entry raises `KeyError`, surfaced by the
framework as a 500); otherwise a truthy `doc_id` must exist in `DOCS` (else
404); otherwise the handler raises 400. -/
def query (gen : String → String → String) (st : AppState) (req : QueryRequest) :
    Except (Nat × String) QueryResponse × AppState :=
  if optTruthy req.session_id then
    match assocLookup st.sessions (req.session_id.getD "") with
    | none => (.error (404, "session_id not found"), st)
    | some sess =>
      match assocLookup st.docs sess.doc_id with
      | none => (.error (500, "KeyError"), st)
      | some entry =>
        queryBody gen st req (some (req.session_id.getD "", sess)) entry (some entry.info)
  else if optTruthy req.doc_id then
    match assocLookup st.docs (req.doc_id.getD "") with
    | none => (.error (404, "doc_id not found; upload first"), st)
    | some entry => queryBody gen st req none entry (some entry.info)
  else
    (.error (400, "Provide session_id or doc_id"), st)

/-- Resolution of the retriever entry the `/query` handler will use, as a
partial view of lines 112-126: `some entry` exactly when the handler reaches
the retrieval step, with `entry` the `DOCS` record it reads. -/
def resolvedDoc (st : AppState) (req : QueryRequest) : Option DocEntry :=
  if optTruthy req.session_id then
    match assocLookup st.sessions (req.session_id.getD "") with
    | none => none
    | some sess => assocLookup st.docs sess.doc_id
  else if optTruthy req.doc_id then
    assocLookup st.docs (req.doc_id.getD "")
  else none

/-- Score as the specification words it (§4.4): the number of DISTINCT query
tokens present as a substring of the lowercased chunk text.  This definition
follows the spec's sentence, for comparison with the code's `chunk_score`. -/
def distinct_chunk_score (question chunk : String) : Nat :=
  ((qwords question).dedup.filter (fun w => strContains (pyLower chunk) w)).length

/-! ### Concrete fixtures used by counterexamples and witnesses -/

/-- A retriever exposing only an `invoke` method, returning six documents. -/
def invoke_only_retriever : Retriever :=
  { get_relevant_documents := none
  , retrieve := none
  , invoke := some (fun _ => [⟨"a"⟩, ⟨"b"⟩, ⟨"c"⟩, ⟨"d"⟩, ⟨"e"⟩, ⟨"f"⟩]) }

/-- A retriever exposing `get_relevant_documents`, returning two documents. -/
def grd_retriever : Retriever :=
  { get_relevant_documents := some (fun _ => [⟨"a"⟩, ⟨"b"⟩])
  , retrieve := none
  , invoke := none }

/-- A retriever whose vector search finds nothing. -/
def empty_retriever : Retriever :=
  { get_relevant_documents := some (fun _ => [])
  , retrieve := none
  , invoke := none }

/-- A registered document whose vector search is empty but whose stored chunk
list is available for the keyword fallback. -/
def entry0 : DocEntry :=
  { persist_dir := "uploaded_files/handbook_chroma"
  , filename := "handbook.pdf"
  , retriever := empty_retriever
  , info := { chunk_count := 1, samples := [], chunks := ["vacation days accrue monthly"] } }

/-- An application state with one document and one session bound to it. -/
def st0 : AppState :=
  { docs := [("d1", entry0)]
  , sessions := [("s1", { doc_id := "d1", history := [] })] }

/-- A stand-in for the model chain. -/
def gen0 : String → String → String := fun _ _ => "generated answer"

/-! ### Helper lemmas -/

theorem assocLookup_assocSet_self {α : Type} (l : List (String × α)) (k : String) (v : α) :
    assocLookup (assocSet l k v) k = some v := by
  induction l with
  | nil => simp [assocSet, assocLookup]
  | cons hd tl ih =>
    obtain ⟨k0, v0⟩ := hd
    by_cases h : k0 = k
    · simp [assocSet, assocLookup, h]
    · simp [assocSet, assocLookup, h, ih]

theorem assocLookup_assocSet_ne {α : Type} (l : List (String × α)) (k k1 : String) (v : α)
    (h : k1 ≠ k) : assocLookup (assocSet l k v) k1 = assocLookup l k1 := by
  have hne : ¬ k = k1 := fun hh => h hh.symm
  induction l with
  | nil => simp [assocSet, assocLookup, hne]
  | cons hd tl ih =>
    obtain ⟨k0, v0⟩ := hd
    by_cases h0 : k0 = k
    · subst h0
      simp [assocSet, assocLookup, hne]
    · by_cases h1 : k0 = k1 <;> simp [assocSet, assocLookup, h0, h1, ih, h]

theorem foldl_count (p : String → Bool) (l : List String) (n : Nat) :
    l.foldl (fun s w => if p w then s + 1 else s) n = n + (l.filter p).length := by
  induction l generalizing n with
  | nil => simp
  | cons w ws ih =>
    by_cases h : p w
    · simp [List.filter, h, ih, Nat.add_comm, Nat.add_assoc, Nat.add_left_comm]
    · simp [List.filter, h, ih]

theorem chunk_score_eq (qws : List String) (c : String) :
    chunk_score qws c = (qws.filter (fun w => strContains (pyLower c) w)).length := by
  have h := foldl_count (fun w => strContains (pyLower c) w) qws 0
  simpa [chunk_score] using h

theorem chunk_score_pos (qws : List String) (c : String) :
    0 < chunk_score qws c ↔ ∃ w ∈ qws, strContains (pyLower c) w = true := by
  rw [chunk_score_eq, List.length_pos]
  constructor
  · intro h
    obtain ⟨w, hw⟩ := List.exists_mem_of_ne_nil _ h
    exact ⟨w, (List.mem_filter.mp hw).1, (List.mem_filter.mp hw).2⟩
  · rintro ⟨w, hw, hc⟩
    exact List.ne_nil_of_mem (List.mem_filter.mpr ⟨hw, hc⟩)

theorem mem_enumFromN_fst {p : Nat × String} {i : Nat} {cs : List String}
    (h : p ∈ enumFromN i cs) : i ≤ p.1 := by
  induction cs generalizing i with
  | nil => simp [enumFromN] at h
  | cons c cs ih =>
    simp only [enumFromN, List.mem_cons] at h
    rcases h with h | h
    · subst h
      exact Nat.le_refl _
    · exact Nat.le_of_succ_le (ih h)

theorem enumFromN_pairwise (i : Nat) (cs : List String) :
    (enumFromN i cs).Pairwise (fun a b => a.1 < b.1) := by
  induction cs generalizing i with
  | nil => exact List.Pairwise.nil
  | cons c cs ih =>
    refine List.Pairwise.cons (fun p hp => ?_) (ih (i + 1))
    exact Nat.lt_of_lt_of_le (Nat.lt_succ_self i) (mem_enumFromN_fst hp)

theorem mem_enumFromN_of_mem :
    ∀ {cs : List String} {c : String}, c ∈ cs → ∀ i, ∃ j, (j, c) ∈ enumFromN i cs := by
  intro cs
  induction cs with
  | nil =>
    intro c h
    cases h
  | cons c0 cs ih =>
    intro c h i
    rcases List.mem_cons.mp h with h0 | h0
    · subst h0
      exact ⟨i, by simp [enumFromN]⟩
    · obtain ⟨j, hj⟩ := ih h0 (i + 1)
      refine ⟨j, ?_⟩
      simp only [enumFromN, List.mem_cons]
      exact Or.inr hj

theorem scores_list_mem {q : String} {cs : List String} {t : Nat × Nat × String}
    (h : t ∈ scores_list q cs) :
    0 < t.1 ∧ t.1 = chunk_score (qwords q) t.2.2 := by
  unfold scores_list at h
  obtain ⟨p, _, hp⟩ := List.mem_filterMap.mp h
  by_cases hpos : 0 < chunk_score (qwords q) p.2
  · rw [if_pos hpos] at hp
    injection hp with hp
    subst hp
    exact ⟨hpos, rfl⟩
  · rw [if_neg hpos] at hp
    simp at hp

theorem scores_list_ne_nil {q c : String} {cs : List String}
    (hc : c ∈ cs) (hpos : 0 < chunk_score (qwords q) c) : scores_list q cs ≠ [] := by
  obtain ⟨j, hj⟩ := mem_enumFromN_of_mem hc 0
  refine List.ne_nil_of_mem (a := (chunk_score (qwords q) c, j, c)) ?_
  unfold scores_list
  refine List.mem_filterMap.mpr ⟨(j, c), hj, ?_⟩
  rw [if_pos hpos]

theorem scores_list_idx_pairwise (q : String) (cs : List String) :
    (scores_list q cs).Pairwise (fun a b => a.2.1 < b.2.1) := by
  unfold scores_list
  refine List.Pairwise.filterMap _ (fun a b hab u hu v hv => ?_) (enumFromN_pairwise 0 cs)
  by_cases ha : 0 < chunk_score (qwords q) a.2
  · by_cases hb : 0 < chunk_score (qwords q) b.2
    · rw [if_pos ha] at hu
      rw [if_pos hb] at hv
      injection hu with hu
      injection hv with hv
      subst hu
      subst hv
      exact hab
    · rw [if_neg hb] at hv
      simp at hv
  · rw [if_neg ha] at hu
    simp at hu

theorem top_entries_subset {q : String} {cs : List String} {t : Nat × Nat × String}
    (h : t ∈ top_entries q cs) : t ∈ scores_list q cs := by
  have h1 : t ∈ sorted_scores q cs := List.mem_of_mem_take h
  exact (List.mem_insertionSort geRel).mp h1

theorem top_entries_ne_nil {q : String} {cs : List String}
    (h : scores_list q cs ≠ []) : top_entries q cs ≠ [] := by
  have hlen : (sorted_scores q cs).length = (scores_list q cs).length :=
    List.length_insertionSort geRel _
  have hpos : 0 < (scores_list q cs).length := List.length_pos.mpr h
  have : 0 < (top_entries q cs).length := by
    simp only [top_entries, List.length_take, hlen]
    omega
  exact List.ne_nil_of_length_pos this

theorem string_data_nil_iff (s : String) : s.data = [] ↔ s = "" := by
  constructor
  · intro h
    cases s
    simp_all
  · intro h
    subst h
    rfl

theorem subOccurs_nil {w : List Char} (h : subOccurs w [] = true) : w = [] := by
  simpa [subOccurs, List.isEmpty_iff] using h

theorem qwords_mem_length {q w : String} (h : w ∈ qwords q) : 2 < w.length := by
  have := (List.mem_filter.mp h).2
  simpa using this

theorem strContains_ne_empty {c w : String} (hc : strContains (pyLower c) w = true)
    (hw : 2 < w.length) : c ≠ "" := by
  intro hce
  subst hce
  have hd : (pyLower "").data = ([] : List Char) := rfl
  rw [strContains, hd] at hc
  have := subOccurs_nil hc
  have hlen : w.length = w.data.length := rfl
  rw [hlen, this] at hw
  simp at hw

theorem foldl_join_length (sep : String) (l : List String) (acc : String) :
    acc.length ≤ (l.foldl (fun a x => a ++ sep ++ x) acc).length := by
  induction l generalizing acc with
  | nil => exact Nat.le_refl _
  | cons x xs ih =>
    refine Nat.le_trans ?_ (ih (acc ++ sep ++ x))
    have hlen : (acc ++ sep ++ x).length = acc.length + sep.length + x.length := by
      simp
    omega

theorem string_ne_empty_of_length {s : String} (h : 0 < s.length) : s ≠ "" := by
  intro he
  subst he
  simp at h

theorem string_length_pos_of_ne {s : String} (h : s ≠ "") : 0 < s.length := by
  have : s.data ≠ [] := fun hd => h ((string_data_nil_iff s).mp hd)
  have : s.data.length ≠ 0 := fun hl => this (List.eq_nil_of_length_eq_zero hl)
  have hlen : s.length = s.data.length := rfl
  omega

theorem pyJoin_ne_empty {sep : String} {l : List String}
    (hl : l ≠ []) (hmem : ∀ s ∈ l, s ≠ "") : pyJoin sep l ≠ "" := by
  match l with
  | [] => exact absurd rfl hl
  | a :: rest =>
    have ha : a ≠ "" := hmem a (List.mem_cons_self _ _)
    have h1 : 0 < a.length := string_length_pos_of_ne ha
    have h2 : a.length ≤ (pyJoin sep (a :: rest)).length := by
      simpa [pyJoin] using foldl_join_length sep rest a
    exact string_ne_empty_of_length (Nat.lt_of_lt_of_le h1 h2)

theorem top_mem_ne_empty {q s : String} {cs : List String} (h : s ∈ top q cs) : s ≠ "" := by
  simp only [top, List.mem_map] at h
  obtain ⟨t, ht, hts⟩ := h
  have hs := scores_list_mem (top_entries_subset ht)
  have hpos : 0 < chunk_score (qwords q) t.2.2 := hs.2 ▸ hs.1
  obtain ⟨w, hw, hc⟩ := (chunk_score_pos _ _).mp hpos
  subst hts
  exact strContains_ne_empty hc (qwords_mem_length hw)

/-! ### Claim theorems -/

/-- C10: a query request that supplies neither a `session_id` nor a `doc_id`
is rejected with HTTP 400 and detail "Provide session_id or doc_id", the
stores are returned unchanged, and the outcome is the same for every document
registry, session store, and model function — so no retrieval or model call
can have influenced it. -/
theorem query_missing_ids_rejected (gen : String → String → String) (st : AppState)
    (q : String) :
    query gen st ⟨q, none, none⟩ = (.error (400, "Provide session_id or doc_id"), st) := rfl

/-- C5: building the index again for a document identifier whose persisted
store is already non-empty is a no-op — the persisted state is unchanged and
the retriever serves exactly the previously persisted chunks, so searches
against it return the same results with no duplicated chunks.  The second
conjunct is the two-build reading: after a first build from scratch with a
non-empty document, an immediate rebuild returns the identical state and
index. -/
theorem create_retriever_from_pdf_idempotent (fs : FsState) (d : String)
    (docs cs : List String)
    (h : assocLookup fs.dirs d = some cs) (hne : cs ≠ []) :
    create_retriever_from_pdf fs d (.ok docs) = (fs, .ok (cs, mkInfo docs)) ∧
    (∀ fs0 : FsState, assocLookup fs0.dirs d = none → docs ≠ [] →
      create_retriever_from_pdf (create_retriever_from_pdf fs0 d (.ok docs)).1 d (.ok docs)
        = create_retriever_from_pdf fs0 d (.ok docs)) := by
  constructor
  · unfold create_retriever_from_pdf makedirs
    rw [h]
    simp [h, hne]
  · intro fs0 h0 hd
    have hdE : docs.isEmpty = false := by
      cases docs with
      | nil => exact absurd rfl hd
      | cons a l => rfl
    unfold create_retriever_from_pdf makedirs
    rw [h0]
    simp [assocLookup_assocSet_self, hdE]

/-- Witness for C5 at a concrete state: the store of directory "d" already
holds chunk "c1", so a rebuild with different content is a no-op. -/
theorem create_retriever_from_pdf_idempotent_witness :
    assocLookup (FsState.mk [("d", ["c1"])]).dirs "d" = some ["c1"] ∧
    create_retriever_from_pdf ⟨[("d", ["c1"])]⟩ "d" (.ok ["x"])
      = (⟨[("d", ["c1"])]⟩, .ok (["c1"], mkInfo ["x"])) :=
  ⟨by decide,
    (create_retriever_from_pdf_idempotent ⟨[("d", ["c1"])]⟩ "d" ["x"] ["c1"]
      (by decide) (by decide)).1⟩

/-- C7 counterexample: build failure is not invisible.  Starting from an empty
persisted state, a build whose PDF loading step raises still creates the
persist directory (`os.makedirs` runs before loading, and nothing is cleaned
up), so the failed build has a visible effect on persisted state. -/
theorem create_retriever_failure_effect_cex :
    (create_retriever_from_pdf ⟨[]⟩ "uploaded_files/handbook_chroma"
        (.error "PdfReadError")).1 ≠ (⟨[]⟩ : FsState) := by decide

/-- C7 amended: when the build fails, the upload registers nothing (`DOCS` is
unchanged) and the error is surfaced as HTTP 500 with the underlying cause,
but the persisted state is not untouched: the persist directory has been
created (empty — no chunk data is persisted by a load failure). -/
theorem upload_pdf_failure_no_partial_data (docsReg : List (String × DocRecord))
    (fs : FsState) (persist_dir filename did e : String)
    (hpdf : pyEndsWith (pyLower filename) ".pdf" = true)
    (habs : assocLookup fs.dirs persist_dir = none) :
    upload_pdf docsReg fs persist_dir filename did (.error e)
      = (docsReg, ⟨assocSet fs.dirs persist_dir []⟩, .error (500, e)) := by
  unfold upload_pdf create_retriever_from_pdf makedirs
  rw [habs]
  simp [hpdf]

/-- Witness for the amended C7 at a concrete failing upload. -/
theorem upload_pdf_failure_no_partial_data_witness :
    pyEndsWith (pyLower "handbook.pdf") ".pdf" = true ∧
    upload_pdf [] ⟨[]⟩ "uploaded_files/handbook_chroma" "handbook.pdf" "id1"
        (.error "PdfReadError")
      = ([], ⟨[("uploaded_files/handbook_chroma", [])]⟩, .error (500, "PdfReadError")) :=
  ⟨by decide,
    upload_pdf_failure_no_partial_data [] ⟨[]⟩ "uploaded_files/handbook_chroma"
      "handbook.pdf" "id1" "PdfReadError" (by decide) (by decide)⟩

/-- C6 counterexample: for a retriever that only supports `invoke`, the
`invoke` branch of `retrieve_documents` returns the documents untruncated, so
the result can exceed `k`: here 6 documents are returned for `k = 5`. -/
theorem retrieve_documents_k_cex :
    ¬ retrievedLen (retrieve_documents invoke_only_retriever "any query" 5) ≤ 5 := by
  decide

/-- C6 amended: `retrieve_documents` returns at most `k` documents whenever
the retriever supports `get_relevant_documents` or `retrieve` (the branches
that slice with `[:k]`); the `invoke` fallback branch has no such bound. -/
theorem retrieve_documents_le_k (r : Retriever) (q : String) (k : Nat)
    (h : r.get_relevant_documents.isSome = true ∨ r.retrieve.isSome = true) :
    retrievedLen (retrieve_documents r q k) ≤ k := by
  rcases hg : r.get_relevant_documents with _ | f
  · rcases hr : r.retrieve with _ | f
    · rw [hg, hr] at h
      simp at h
    · simp only [retrieve_documents, retrievedLen, hg, hr]
      rw [List.length_take]
      omega
  · simp only [retrieve_documents, retrievedLen, hg]
    rw [List.length_take]
    omega

/-- Witness for the amended C6: a `get_relevant_documents` retriever yielding
two documents is truncated to `k = 1`. -/
theorem retrieve_documents_le_k_witness :
    (grd_retriever.get_relevant_documents.isSome = true ∨
      grd_retriever.retrieve.isSome = true) ∧
    retrievedLen (retrieve_documents grd_retriever "q" 1) ≤ 1 :=
  ⟨Or.inl rfl, retrieve_documents_le_k grd_retriever "q" 1 (Or.inl rfl)⟩

/-- C2 counterexample: in the spec's worked example the claimed score of 2 for
chunk 2 is wrong on the code.  Tokenisation splits on whitespace only, so the
last query token is "policy?" (question mark included), which is not a
substring of "vacation and policy details here." — chunk 2 scores 1, not 2. -/
theorem keyword_example_score_cex :
    ¬ chunk_score (qwords "What is the vacation policy?")
        "Vacation and policy details here." = 2 := by decide

/-- C2 amended: full evaluation of the worked example.  Chunk 0 scores 1
("vacation"), chunk 1 scores 0, chunk 2 scores 1 ("vacation" only — the token
"policy?" keeps its question mark and fails the substring test), and the
result order is still [2, 0] because the tie between the two score-1 chunks is
broken by descending index. -/
theorem keyword_example_eval :
    chunk_score (qwords "What is the vacation policy?")
        "Vacation days accrue monthly." = 1 ∧
    chunk_score (qwords "What is the vacation policy?")
        "Parking is free." = 0 ∧
    chunk_score (qwords "What is the vacation policy?")
        "Vacation and policy details here." = 1 ∧
    top_entries "What is the vacation policy?"
        ["Vacation days accrue monthly.", "Parking is free.",
          "Vacation and policy details here."]
      = [(1, 2, "Vacation and policy details here."),
          (1, 0, "Vacation days accrue monthly.")] ∧
    top "What is the vacation policy?"
        ["Vacation days accrue monthly.", "Parking is free.",
          "Vacation and policy details here."]
      = ["Vacation and policy details here.", "Vacation days accrue monthly."] := by
  decide

/-- C4 counterexample: the code counts query tokens with multiplicity, not
distinct tokens.  For the query "cat cat sat" the token "cat" appears twice
and the chunk "the cat" scores 2, while only one distinct token occurs in
it. -/
theorem chunk_score_distinct_cex :
    chunk_score (qwords "cat cat sat") "the cat" = 2 ∧
    distinct_chunk_score "cat cat sat" "the cat" = 1 ∧
    chunk_score (qwords "cat cat sat") "the cat"
      ≠ distinct_chunk_score "cat cat sat" "the cat" := by decide

/-- C4 amended: for every query and chunk, the fallback's score equals the
number of query tokens counted WITH multiplicity — obtained by lowercasing the
query, splitting on whitespace and discarding tokens shorter than 3
characters — that occur as a substring of the lowercased chunk text. -/
theorem chunk_score_multiplicity (q c : String) :
    chunk_score (qwords q) c
      = ((qwords q).filter (fun w => strContains (pyLower c) w)).length :=
  chunk_score_eq _ _

/-- C3 counterexample: on a score tie the fallback keeps the HIGHER original
index first, not the lower one.  Both chunks score 1 for the query "cat", and
the result lists chunk 1 before chunk 0 — the claimed ascending tie-break
would produce the opposite order. -/
theorem fallback_tie_order_cex :
    top "cat" ["cat a", "cat b"] = ["cat b", "cat a"] ∧
    top "cat" ["cat a", "cat b"] ≠ ["cat a", "cat b"] ∧
    top_entries "cat" ["cat a", "cat b"] = [(1, 1, "cat b"), (1, 0, "cat a")] := by
  decide

/-- C3 amended: every entry selected by the keyword fallback has a strictly
positive score (equal to its chunk's keyword score), at most `top_n = 3`
entries are selected, and they are ordered by descending score with ties
broken by DESCENDING original chunk index (Python's `sort(reverse=True)` on
`(score, index, chunk)` tuples reverses the index order too). -/
theorem fallback_top_ranked (q : String) (cs : List String) (t : Nat × Nat × String)
    (ht : t ∈ top_entries q cs) :
    0 < t.1 ∧ t.1 = chunk_score (qwords q) t.2.2 ∧
    (top_entries q cs).length ≤ 3 ∧
    (top_entries q cs).Pairwise
      (fun a b => b.1 < a.1 ∨ (a.1 = b.1 ∧ b.2.1 < a.2.1)) := by
  have hmem := scores_list_mem (top_entries_subset ht)
  refine ⟨hmem.1, hmem.2, ?_, ?_⟩
  · simp only [top_entries, List.length_take]
    omega
  · have hsorted : (sorted_scores q cs).Pairwise geRel :=
      List.sorted_insertionSort geRel (scores_list q cs)
    have hperm : List.Perm (sorted_scores q cs) (scores_list q cs) :=
      List.perm_insertionSort geRel (scores_list q cs)
    have hneidx : (scores_list q cs).Pairwise (fun a b => a.2.1 ≠ b.2.1) :=
      (scores_list_idx_pairwise q cs).imp (fun hab => Nat.ne_of_lt hab)
    have hneidx2 : (sorted_scores q cs).Pairwise (fun a b => a.2.1 ≠ b.2.1) :=
      (List.Perm.pairwise_iff (fun hxy => Ne.symm hxy) hperm).mpr hneidx
    have hstrict : (sorted_scores q cs).Pairwise
        (fun a b => b.1 < a.1 ∨ (a.1 = b.1 ∧ b.2.1 < a.2.1)) := by
      refine (hsorted.and hneidx2).imp (fun hab => ?_)
      obtain ⟨hge, hne⟩ := hab
      unfold geRel at hge
      omega
    exact List.Pairwise.sublist (List.take_sublist 3 _) hstrict

/-- Witness for the amended C3: the single matching chunk of a one-chunk
corpus is selected with score 1. -/
theorem fallback_top_ranked_witness :
    (1, 0, "a cat") ∈ top_entries "cat" ["a cat"] ∧
    (0 < (1, 0, "a cat").1 ∧
      (1, 0, "a cat").1 = chunk_score (qwords "cat") (1, 0, "a cat").2.2 ∧
      (top_entries "cat" ["a cat"]).length ≤ 3 ∧
      (top_entries "cat" ["a cat"]).Pairwise
        (fun a b => b.1 < a.1 ∨ (a.1 = b.1 ∧ b.2.1 < a.2.1))) :=
  ⟨by decide, fallback_top_ranked "cat" ["a cat"] (1, 0, "a cat") (by decide)⟩

theorem query_resolves (gen : String → String → String) (st : AppState)
    (req : QueryRequest) (entry : DocEntry)
    (hres : resolvedDoc st req = some entry) :
    ∃ sess, query gen st req = queryBody gen st req sess entry (some entry.info) := by
  unfold resolvedDoc at hres
  by_cases h1 : optTruthy req.session_id
  · rw [if_pos h1] at hres
    cases hs : assocLookup st.sessions (req.session_id.getD "") with
    | none =>
      rw [hs] at hres
      have hfail : (none : Option DocEntry) = some entry := hres
      cases hfail
    | some sess =>
      rw [hs] at hres
      have hres2 : assocLookup st.docs sess.doc_id = some entry := hres
      refine ⟨some (req.session_id.getD "", sess), ?_⟩
      unfold query
      rw [if_pos h1]
      simp only [hs, hres2]
  · rw [if_neg h1] at hres
    by_cases h2 : optTruthy req.doc_id
    · rw [if_pos h2] at hres
      refine ⟨none, ?_⟩
      unfold query
      rw [if_neg h1, if_pos h2]
      simp only [hres]
    · rw [if_neg h2] at hres
      cases hres

/-- C1: when vector retrieval returns no documents and at least one query
keyword (lowercased, whitespace-split, length ≥ 3) occurs as a substring of
at least one stored (lowercased) chunk, the keyword fallback runs, its
selected chunks joined with blank lines become the context handed to answer
generation, the context is non-empty, and the outcome is tagged as the
keyword source — never the empty `source = none` result. -/
theorem query_fallback_used (gen : String → String → String) (st : AppState)
    (req : QueryRequest) (entry : DocEntry)
    (hres : resolvedDoc st req = some entry)
    (hret : retrieve_documents entry.retriever req.question 5 = .ok [])
    (hkw : ∃ w ∈ qwords req.question, ∃ c ∈ entry.info.chunks,
      strContains (pyLower c) w = true) :
    ∃ resp st1, query gen st req = (.ok resp, st1) ∧
      resp.source = .keyword ∧
      resp.context_used = pyJoin "\n\n" (top req.question entry.info.chunks) ∧
      resp.context_used ≠ "" ∧
      resp.answer
        = gen (pyJoin "\n\n" (top req.question entry.info.chunks)) req.question := by
  obtain ⟨sess, hq⟩ := query_resolves gen st req entry hres
  obtain ⟨w, hw, c, hc, hcontains⟩ := hkw
  have hchunks : entry.info.chunks ≠ [] := List.ne_nil_of_mem hc
  have hpos : 0 < chunk_score (qwords req.question) c :=
    (chunk_score_pos _ _).mpr ⟨w, hw, hcontains⟩
  have hsc : scores_list req.question entry.info.chunks ≠ [] :=
    scores_list_ne_nil hc hpos
  have htop : top req.question entry.info.chunks ≠ [] := by
    have h1 := top_entries_ne_nil hsc
    simp only [top, ne_eq, List.map_eq_nil_iff]
    exact h1
  have hjoin : pyJoin "\n\n" (top req.question entry.info.chunks) ≠ "" :=
    pyJoin_ne_empty htop (fun s hs => top_mem_ne_empty hs)
  rw [hq]
  unfold queryBody
  rw [hret]
  simp only [List.length_nil, List.map_nil, if_pos, hchunks, htop, hjoin,
    ne_eq, not_false_eq_true, if_true, reduceIte]
  exact ⟨_, _, rfl, rfl, rfl, hjoin, rfl⟩

/-- Witness for C1: a query whose vector search is empty but whose keyword
"vacation" occurs in the stored chunk is answered from the fallback
context. -/
theorem query_fallback_used_witness :
    resolvedDoc st0 ⟨"vacation time", none, some "d1"⟩ = some entry0 ∧
    (∃ resp st1, query gen0 st0 ⟨"vacation time", none, some "d1"⟩ = (.ok resp, st1) ∧
      resp.source = .keyword ∧
      resp.context_used = pyJoin "\n\n" (top "vacation time" entry0.info.chunks) ∧
      resp.context_used ≠ "" ∧
      resp.answer
        = gen0 (pyJoin "\n\n" (top "vacation time" entry0.info.chunks)) "vacation time") :=
  ⟨rfl,
    query_fallback_used gen0 st0 ⟨"vacation time", none, some "d1"⟩ entry0 rfl rfl
      ⟨"vacation", by decide, "vacation days accrue monthly", by decide, by decide⟩⟩

/-- C8: when vector retrieval returns no documents and the keyword fallback
selects no chunks either, the query still completes successfully: the
response is tagged `source = none`, reports zero retrieved documents and no
snippets, and answer generation is invoked with the empty context rather than
the request crashing. -/
theorem query_empty_result_graceful (gen : String → String → String) (st : AppState)
    (req : QueryRequest) (entry : DocEntry)
    (hres : resolvedDoc st req = some entry)
    (hret : retrieve_documents entry.retriever req.question 5 = .ok [])
    (hfb : top req.question entry.info.chunks = []) :
    ∃ resp st1, query gen st req = (.ok resp, st1) ∧
      resp.source = .none_ ∧
      resp.retrieved_count = 0 ∧
      resp.snippets = [] ∧
      resp.context_used = "" ∧
      resp.answer = gen "" req.question := by
  obtain ⟨sess, hq⟩ := query_resolves gen st req entry hres
  rw [hq]
  unfold queryBody
  rw [hret]
  by_cases hch : entry.info.chunks = []
  · simp only [List.length_nil, List.map_nil, hch, ne_eq, not_true_eq_false, if_false,
      reduceIte, pyJoin]
    exact ⟨_, _, rfl, rfl, rfl, rfl, rfl, rfl⟩
  · simp only [List.length_nil, List.map_nil, hch, hfb, ne_eq, not_false_eq_true,
      not_true_eq_false, if_true, if_false, reduceIte, pyJoin]
    exact ⟨_, _, rfl, rfl, rfl, rfl, rfl, rfl⟩

/-- Witness for C8: a gibberish query matching nothing still yields a
successful, empty-sourced response. -/
theorem query_empty_result_graceful_witness :
    resolvedDoc st0 ⟨"zzzz", none, some "d1"⟩ = some entry0 ∧
    (∃ resp st1, query gen0 st0 ⟨"zzzz", none, some "d1"⟩ = (.ok resp, st1) ∧
      resp.source = .none_ ∧
      resp.retrieved_count = 0 ∧
      resp.snippets = [] ∧
      resp.context_used = "" ∧
      resp.answer = gen0 "" "zzzz") :=
  ⟨rfl,
    query_empty_result_graceful gen0 st0 ⟨"zzzz", none, some "d1"⟩ entry0 rfl rfl
      (by decide)⟩

/-- C9: a successful query through a valid session appends exactly one
(question, answer) record to that session's history and changes nothing else:
the document registry is untouched, the session keeps its `doc_id` binding,
every other session is unchanged — and a query made with only a `doc_id`
leaves the whole state (all session histories included) unchanged. -/
theorem query_session_history_frame (gen : String → String → String) (st : AppState)
    (sid : String) (sess : SessionEntry) (entry : DocEntry) (q : String)
    (docsR : List Doc)
    (hsid : sid ≠ "")
    (hsess : assocLookup st.sessions sid = some sess)
    (hdoc : assocLookup st.docs sess.doc_id = some entry)
    (hret : retrieve_documents entry.retriever q 5 = .ok docsR) :
    (∃ resp st1, query gen st ⟨q, some sid, none⟩ = (.ok resp, st1) ∧
      st1.docs = st.docs ∧
      st1.sessions = assocSet st.sessions sid
        ⟨sess.doc_id, sess.history ++ [(q, resp.answer)]⟩ ∧
      assocLookup st1.sessions sid
        = some ⟨sess.doc_id, sess.history ++ [(q, resp.answer)]⟩ ∧
      (∀ sid1, sid1 ≠ sid →
        assocLookup st1.sessions sid1 = assocLookup st.sessions sid1)) ∧
    (∀ did entry1 docs1, did ≠ "" → assocLookup st.docs did = some entry1 →
      retrieve_documents entry1.retriever q 5 = .ok docs1 →
      (query gen st ⟨q, none, some did⟩).2 = st) := by
  constructor
  · have h1 : optTruthy (some sid) = true := by
      simp [optTruthy, hsid]
    have hq : query gen st ⟨q, some sid, none⟩
        = queryBody gen st ⟨q, some sid, none⟩ (some (sid, sess)) entry (some entry.info) := by
      unfold query
      rw [if_pos h1]
      simp only [Option.getD_some, hsess, hdoc]
    rw [hq]
    unfold queryBody
    rw [hret]
    exact ⟨_, _, rfl, rfl, rfl, assocLookup_assocSet_self _ _ _,
      fun sid1 hne => assocLookup_assocSet_ne _ _ _ _ hne⟩
  · intro did entry1 docs1 hdid hdoc1 hret1
    have h2 : optTruthy (some did) = true := by
      simp [optTruthy, hdid]
    have hq : query gen st ⟨q, none, some did⟩
        = queryBody gen st ⟨q, none, some did⟩ none entry1 (some entry1.info) := by
      unfold query
      rw [if_neg (by simp [optTruthy]), if_pos h2]
      simp only [Option.getD_some, hdoc1]
    rw [hq]
    unfold queryBody
    rw [hret1]

/-- Witness for C9 at a concrete state with one session and one document. -/
theorem query_session_history_frame_witness :
    ("s1" : String) ≠ "" ∧
    ((∃ resp st1, query gen0 st0 ⟨"hi", some "s1", none⟩ = (.ok resp, st1) ∧
      st1.docs = st0.docs ∧
      st1.sessions = assocSet st0.sessions "s1" ⟨"d1", [("hi", resp.answer)]⟩ ∧
      assocLookup st1.sessions "s1" = some ⟨"d1", [("hi", resp.answer)]⟩ ∧
      (∀ sid1, sid1 ≠ "s1" →
        assocLookup st1.sessions sid1 = assocLookup st0.sessions sid1)) ∧
    (∀ did entry1 docs1, did ≠ "" → assocLookup st0.docs did = some entry1 →
      retrieve_documents entry1.retriever "hi" 5 = .ok docs1 →
      (query gen0 st0 ⟨"hi", none, some did⟩).2 = st0)) :=
  ⟨by decide,
    query_session_history_frame gen0 st0 "s1" ⟨"d1", []⟩ entry0 "hi" []
      (by decide) rfl rfl rfl⟩

end PdfAgent
